import Mathlib

/-!
Shallow embedding of the trivia backend (`backend/flaskr/__init__.py`):
the pagination helper, the question-catalog handlers (create, delete,
search, questions-by-category) and the quiz-selection handler, together
with theorems settling the specification claims about them.

Python machine-level conventions used throughout:
* a list slice `l[start:end]` with `0 <= start <= end` is `(l.drop start).take (end - start)`;
* `dict.get(key)` / `dict.get(key, default)` are modelled with `Option` fields
  (`none` = key absent) and `Option.getD`;
* an uncaught Python exception (NameError, AttributeError, ValueError) makes the
  handler answer HTTP 500; each such exception is a distinct error constructor;
* `Question.query.all()` is the catalog's question list, `query.filter_by` is
  `List.filter`, `query.get(id)` is `List.find?` on the primary key.
-/

namespace Trivia

/-- A row of the `questions` table (`models.Question`). -/
structure Question where
  id : Nat
  question : String
  answer : String
  category : Nat
  difficulty : Nat
deriving DecidableEq, Repr

/-- A row of the `categories` table (`models.Category`). -/
structure Category where
  id : Nat
  type : String
deriving DecidableEq, Repr

/-- The dictionary produced by `Question.format()`. -/
structure FormattedQuestion where
  id : Nat
  question : String
  answer : String
  category : Nat
  difficulty : Nat
deriving DecidableEq, Repr

/-- `Question.format()`: serialises a row field by field. -/
def Question.format (q : Question) : FormattedQuestion :=
  ⟨q.id, q.question, q.answer, q.category, q.difficulty⟩

/-- The catalog store: the two tables the handlers query. -/
structure Store where
  questions : List Question
  categories : List Category
deriving Repr

/-- `QUESTIONS_PER_PAGE = 10`. -/
def QUESTIONS_PER_PAGE : Nat := 10

/-- `paginate_questions(request, selection)`.  The page number is read from
`request.args.get('page', 1, type=int)`, modelled as an `Option Nat` (`none` =
parameter absent, defaulting to 1).  The source computes
`start = (page - 1) * QUESTIONS_PER_PAGE`, `end = start + QUESTIONS_PER_PAGE`,
formats every question of the selection, and returns the slice
`questions[start:end]`.  (A negative Python page number would produce a
wrap-around slice; the claims only quantify over pages ≥ 1, which `Nat`
covers.) -/
def paginate_questions (pageArg : Option Nat) (selection : List Question) :
    List FormattedQuestion :=
  let page := pageArg.getD 1
  let start := (page - 1) * QUESTIONS_PER_PAGE
  let questions := selection.map Question.format
  (questions.drop start).take QUESTIONS_PER_PAGE

/-- The distinct ways an embedded handler can fail to produce its success
JSON: the three `abort(...)` codes the application maps through its error
handlers, and the uncaught Python exceptions (each of which Flask turns into a
500 Internal Server Error). -/
inductive HandlerError where
  | badRequest
  | notFound
  | unprocessable
  | nameError
  | attributeError
  | multipleResultsFound
deriving DecidableEq, Repr

/-- `delete_question(id)`: `Question.query.get(id)` is a primary-key lookup
returning `None` when the id is absent; in that case `question.delete()`
raises `AttributeError` (`None` has no attribute `delete`), which the
handler's `except IndexError` clause does not catch, so the exception
escapes as a 500.  When the id is present, the row is deleted and the handler
answers 200 with a confirmation message.  The result carries the question
table after the call. -/
def delete_question (store : List Question) (id : Nat) :
    Except HandlerError (List Question × String) :=
  match store.find? (fun q => q.id == id) with
  | none => .error .attributeError
  | some _ =>
    .ok (store.filter (fun q => !(q.id == id)), "Question successfully deleted!")

/-- A JSON value of a `POST /questions` body field. -/
inductive JsonVal where
  | str (s : String)
  | num (n : Nat)
deriving DecidableEq, Repr

/-- The JSON body of a `POST /questions` request: the four creation fields
and `searchTerm`, each possibly absent. -/
structure PostBody where
  question : Option JsonVal
  answer : Option JsonVal
  difficulty : Option JsonVal
  category : Option JsonVal
  searchTerm : Option JsonVal
deriving DecidableEq, Repr

/-- Result of `create_question()`: either 422 (some creation field absent or
empty) or 201 after `question.insert()` was called with the four raw values. -/
inductive CreateResult where
  | created (question answer difficulty category : JsonVal)
  | unprocessable
deriving DecidableEq, Repr

/-- `create_question()`: loads the four fields with `data.get(field, '')`,
aborts 422 when any of them equals `''` (in particular when absent, since the
default is `''`), else builds a `Question` from the raw values and calls
`question.insert()`. -/
def create_question (body : PostBody) : CreateResult :=
  let question := body.question.getD (.str "")
  let answer := body.answer.getD (.str "")
  let difficulty := body.difficulty.getD (.str "")
  let category := body.category.getD (.str "")
  if question == .str "" || answer == .str "" ||
      difficulty == .str "" || category == .str "" then
    .unprocessable
  else
    .created question answer difficulty category

/-- Both `create_question` and `search_questions` are registered with
`@app.route('/questions', methods=['POST'])`.  Werkzeug keeps equally
specific rules in registration order, so every `POST /questions` request is
dispatched to the first-registered view, `create_question`; `search_questions`
is unreachable.  (The repository's own tests rely on this: a body holding
only `searchTerm` is asserted to get 422.) -/
def post_questions (body : PostBody) : CreateResult :=
  create_question body

/-- `search_questions()`: the handler's first statement is
`data = reques.get_json()`, and `reques` is an undefined name — not a local,
not a module global, not a builtin — so every invocation raises `NameError`
before the `searchTerm` is even read, whatever the body and catalog.  (Even
with that name fixed, the zero-match branch reads the undefined name
`questions` — the selection is bound to `selection` — raising a second
`NameError` instead of the intended `abort(404)`.) -/
def search_questions (_store : List Question) (_pageArg : Option Nat)
    (_body : PostBody) : Except HandlerError (List FormattedQuestion × Nat) :=
  .error .nameError

/-- The substring engine the search handler's dead code would use:
`Question.question.ilike('%term%')`, i.e. case-insensitive containment of the
term in the question text. -/
def beginsWith : List Char → List Char → Bool
  | [], _ => true
  | _ :: _, [] => false
  | p :: ps, c :: cs => p == c && beginsWith ps cs

/-- `pat` occurs as a contiguous run inside `s`. -/
def occursIn (pat : List Char) : List Char → Bool
  | [] => pat.isEmpty
  | c :: cs => beginsWith pat (c :: cs) || occursIn pat cs

/-- `Question.query.filter(Question.question.ilike(f'%{term}%')).all()`:
both sides are lowered character-wise before the containment test. -/
def searchFilter (store : List Question) (term : String) : List Question :=
  store.filter (fun q =>
    occursIn (term.toList.map Char.toLower) (q.question.toList.map Char.toLower))

/-- `query.filter_by(id=id).one_or_none()`: `none` when no row matches, the
row when exactly one does, and the `MultipleResultsFound` exception when
several do (impossible for a primary key, but part of the call's contract). -/
def one_or_none (cats : List Category) (id : Nat) :
    Except HandlerError (Option Category) :=
  match cats.filter (fun c => c.id == id) with
  | [] => .ok none
  | [c] => .ok (some c)
  | _ => .error .multipleResultsFound

/-- The success JSON of `GET /categories/<id>/questions`. -/
structure CategoryQuestionsResponse where
  success : Bool
  questions : List FormattedQuestion
  total_questions : Nat
  current_category : String
deriving DecidableEq, Repr

/-- `get_questions_by_category(id)`: resolves the category with
`one_or_none`, aborts 400 when it is absent (before any question is fetched),
then paginates `Question.query.filter_by(category=id).all()` and answers with
the page, `len(Question.query.all())` as `total_questions`, and the
category's label. -/
def get_questions_by_category (store : Store) (pageArg : Option Nat)
    (id : Nat) : Except HandlerError CategoryQuestionsResponse :=
  match one_or_none store.categories id with
  | .error e => .error e
  | .ok none => .error .badRequest
  | .ok (some category) =>
    let selection := store.questions.filter (fun q => q.category == id)
    .ok ⟨true, paginate_questions pageArg selection, store.questions.length,
      category.type⟩

/-- The `quiz_category` JSON object `{'type': ..., 'id': ...}` of a
`POST /quizzes` body. -/
structure QuizCategory where
  type : String
  id : Nat
deriving DecidableEq, Repr

/-- Outcome of one run of the quiz-selection rejection loop, observed for a
given amount of fuel.  `running` means the Python `while found:` loop has not
returned within that many draws — the loop itself has no exit other than
finding an unseen question, so `running` at every fuel is non-termination.
`valueError` is the uncaught `ValueError` that `random.randint(0, -1)` raises
when the candidate pool is empty (the handler answers 500). -/
inductive QuizOutcome where
  | question (q : Question)
  | valueError
  | running
deriving DecidableEq, Repr

/-- The body of `get_random_quiz_question` from the first draw on:
`get_random_question()` is `questions[random.randint(0, len(questions)-1)]`,
modelled with an injected draw stream `rng` whose value at step `t` is reduced
`% questions.length` (exactly the range `randint` guarantees); the
`while found:` loop re-draws while the drawn question's id is in
`previous_questions` and returns the question otherwise. -/
def quizLoop (questions : List Question) (previous : List Nat)
    (rng : Nat → Nat) : Nat → Nat → QuizOutcome
  | 0, _ => .running
  | fuel + 1, t =>
    match questions[rng t % questions.length]? with
    | none => .valueError
    | some q =>
      if q.id ∈ previous then quizLoop questions previous rng fuel (t + 1)
      else .question q

/-- Result of the `POST /quizzes` handler. -/
inductive QuizResult where
  | ok (fq : FormattedQuestion)
  | badRequest
  | valueError
  | running
deriving DecidableEq, Repr

/-- The candidate pool of `get_random_quiz_question`: `Question.query.all()`
when `quiz_category['id'] == 0`, else
`Question.query.filter_by(category=quiz_category['id']).all()`. -/
def quizPool (store : List Question) (qc : QuizCategory) : List Question :=
  if qc.id == 0 then store else store.filter (fun q => q.category == qc.id)

/-- `get_random_quiz_question()`: reads `previous_questions` and
`quiz_category` from the JSON body (`none` = key absent), aborts 400 when
either is absent, builds the candidate pool, then runs the rejection loop and
serialises the selected question. -/
def get_random_quiz_question (store : List Question)
    (previous_questions : Option (List Nat)) (quiz_category : Option QuizCategory)
    (rng : Nat → Nat) (fuel : Nat) : QuizResult :=
  match quiz_category, previous_questions with
  | some qc, some previous =>
    match quizLoop (quizPool store qc) previous rng fuel 0 with
    | .question q => .ok q.format
    | .valueError => .valueError
    | .running => .running
  | _, _ => .badRequest

/-- When the pool is nonempty but every pool id is already in
`previous_questions`, every draw is rejected: the loop is still running after
any number of draws, from any point of the draw stream. -/
theorem quizLoop_running_of_covered (questions : List Question)
    (previous : List Nat) (rng : Nat → Nat) (hne : questions ≠ [])
    (hcov : ∀ q ∈ questions, q.id ∈ previous) :
    ∀ fuel t, quizLoop questions previous rng fuel t = .running := by
  intro fuel
  induction fuel with
  | zero => intro t; rfl
  | succ fuel ih =>
    intro t
    have hlt : rng t % questions.length < questions.length :=
      Nat.mod_lt _ (List.length_pos.mpr hne)
    rw [quizLoop, List.getElem?_eq_getElem hlt]
    simp only
    rw [if_pos (hcov _ (questions.getElem_mem hlt))]
    exact ih (t + 1)

/-- On the empty pool the very first draw raises `ValueError`
(`random.randint(0, -1)`). -/
theorem quizLoop_valueError_of_nil (previous : List Nat) (rng : Nat → Nat)
    (fuel t : Nat) :
    quizLoop [] previous rng (fuel + 1) t = .valueError := by
  rw [quizLoop]
  rfl

/-- When the loop does return a question, that question is an element of the
pool whose id is not in `previous_questions`. -/
theorem quizLoop_question_spec (questions : List Question) (previous : List Nat)
    (rng : Nat → Nat) :
    ∀ fuel t q, quizLoop questions previous rng fuel t = .question q →
      q ∈ questions ∧ q.id ∉ previous := by
  intro fuel
  induction fuel with
  | zero => intro t q h; exact absurd h (by simp [quizLoop])
  | succ fuel ih =>
    intro t q h
    rw [quizLoop] at h
    cases hget : questions[rng t % questions.length]? with
    | none => rw [hget] at h; exact absurd h (by simp)
    | some q' =>
      rw [hget] at h
      simp only at h
      by_cases hmem : q'.id ∈ previous
      · rw [if_pos hmem] at h
        exact ih (t + 1) q h
      · rw [if_neg hmem] at h
        cases h
        obtain ⟨hlt, hEq⟩ := List.getElem?_eq_some.mp hget
        exact ⟨hEq ▸ questions.getElem_mem hlt, hmem⟩

end Trivia

/-- C1 (refuted by the code): when `previous_questions` covers the whole
candidate pool, the handler never produces any distinguished "Exhausted"
outcome (no such outcome even exists in its result type): on a nonempty
covered pool the rejection loop is still `running` after arbitrarily many
draws — it loops forever — and on an empty pool the first draw raises an
uncaught `ValueError` (HTTP 500). -/
theorem quiz_covered_pool_never_exhausted (store : List Trivia.Question)
    (previous : List Nat) (qc : Trivia.QuizCategory) (rng : Nat → Nat)
    (hcov : ∀ q ∈ Trivia.quizPool store qc, q.id ∈ previous) :
    (Trivia.quizPool store qc ≠ [] → ∀ fuel,
      Trivia.get_random_quiz_question store (some previous) (some qc) rng fuel =
        .running) ∧
    (Trivia.quizPool store qc = [] → ∀ fuel,
      Trivia.get_random_quiz_question store (some previous) (some qc) rng
        (fuel + 1) = .valueError) := by
  constructor
  · intro hne fuel
    show (match Trivia.quizLoop (Trivia.quizPool store qc) previous rng fuel 0 with
      | .question q => Trivia.QuizResult.ok q.format
      | .valueError => .valueError
      | .running => .running) = .running
    rw [Trivia.quizLoop_running_of_covered _ _ _ hne hcov]
  · intro hnil fuel
    show (match Trivia.quizLoop (Trivia.quizPool store qc) previous rng (fuel + 1) 0 with
      | .question q => Trivia.QuizResult.ok q.format
      | .valueError => .valueError
      | .running => .running) = .valueError
    rw [hnil, Trivia.quizLoop_valueError_of_nil]

/-- Witness for C1: a pool holding only question 5 with `previous = [5]` is
still `running` after 7 draws. -/
theorem quiz_covered_pool_never_exhausted_witness :
    Trivia.get_random_quiz_question [⟨5, "q5", "a5", 1, 1⟩] (some [5])
      (some ⟨"All", 0⟩) (fun _ => 0) 7 = .running :=
  (quiz_covered_pool_never_exhausted [⟨5, "q5", "a5", 1, 1⟩] [5] ⟨"All", 0⟩
    (fun _ => 0) (by decide)).1 (by decide) 7

/-- C2: every successful quiz selection returns exactly one question of the
candidate pool — the whole catalog when the scope id is 0, otherwise only
questions of that category — whose id is not in the supplied
`previous_questions`. -/
theorem quiz_success_from_pool (store : List Trivia.Question)
    (previous : List Nat) (qc : Trivia.QuizCategory) (rng : Nat → Nat)
    (fuel : Nat) (fq : Trivia.FormattedQuestion)
    (h : Trivia.get_random_quiz_question store (some previous) (some qc) rng fuel =
      .ok fq) :
    ∃ q, q ∈ Trivia.quizPool store qc ∧ fq = q.format ∧ q.id ∉ previous ∧
      (qc.id = 0 → q ∈ store) ∧
      (qc.id ≠ 0 → q ∈ store ∧ q.category = qc.id) := by
  have h' : ∃ q, Trivia.quizLoop (Trivia.quizPool store qc) previous rng fuel 0 =
      .question q ∧ fq = q.format := by
    revert h
    show (match Trivia.quizLoop (Trivia.quizPool store qc) previous rng fuel 0 with
      | .question q => Trivia.QuizResult.ok q.format
      | .valueError => .valueError
      | .running => .running) = .ok fq → _
    cases hl : Trivia.quizLoop (Trivia.quizPool store qc) previous rng fuel 0 with
    | question q => intro h; cases h; exact ⟨q, rfl, rfl⟩
    | valueError => intro h; cases h
    | running => intro h; cases h
  obtain ⟨q, hl, hfq⟩ := h'
  obtain ⟨hpool, hprev⟩ := Trivia.quizLoop_question_spec _ _ _ _ _ _ hl
  refine ⟨q, hpool, hfq, hprev, ?_, ?_⟩
  · intro h0
    simpa [Trivia.quizPool, h0] using hpool
  · intro h0
    have : q ∈ store.filter (fun q => q.category == qc.id) := by
      simpa [Trivia.quizPool, if_neg (by simpa using h0)] using hpool
    have := List.mem_filter.mp this
    exact ⟨this.1, by simpa using this.2⟩

/-- Witness for C2: with pool ids `{5, 9, 12}` and `previous = [5, 9]`, the
draw stream 0,1,2 rejects 5 and 9 and the handler returns question 12. -/
theorem quiz_success_from_pool_witness :
    ∃ q, q ∈ Trivia.quizPool
        [⟨5, "q5", "a5", 1, 1⟩, ⟨9, "q9", "a9", 1, 2⟩, ⟨12, "q12", "a12", 1, 3⟩]
        ⟨"Science", 0⟩ ∧
      (⟨12, "q12", "a12", 1, 3⟩ : Trivia.Question).format = q.format ∧
      q.id ∉ [5, 9] ∧
      ((⟨"Science", 0⟩ : Trivia.QuizCategory).id = 0 →
        q ∈ [⟨5, "q5", "a5", 1, 1⟩, ⟨9, "q9", "a9", 1, 2⟩, ⟨12, "q12", "a12", 1, 3⟩]) ∧
      ((⟨"Science", 0⟩ : Trivia.QuizCategory).id ≠ 0 →
        q ∈ [⟨5, "q5", "a5", 1, 1⟩, ⟨9, "q9", "a9", 1, 2⟩, ⟨12, "q12", "a12", 1, 3⟩] ∧
          q.category = (⟨"Science", 0⟩ : Trivia.QuizCategory).id) :=
  quiz_success_from_pool
    [⟨5, "q5", "a5", 1, 1⟩, ⟨9, "q9", "a9", 1, 2⟩, ⟨12, "q12", "a12", 1, 3⟩]
    [5, 9] ⟨"Science", 0⟩ (fun t => t) 3 (⟨12, "q12", "a12", 1, 3⟩ :
      Trivia.Question).format (by decide)

/-- C8: a quiz request in which `quiz_category` or `previous_questions` is
absent is answered with 400 Bad request, whatever the catalog, draw stream and
fuel. -/
theorem quiz_missing_fields_bad_request (store : List Trivia.Question)
    (previous_questions : Option (List Nat))
    (quiz_category : Option Trivia.QuizCategory) (rng : Nat → Nat) (fuel : Nat)
    (h : quiz_category = none ∨ previous_questions = none) :
    Trivia.get_random_quiz_question store previous_questions quiz_category rng
      fuel = .badRequest := by
  rcases h with h | h
  · subst h
    cases previous_questions <;> rfl
  · subst h
    cases quiz_category <;> rfl

/-- Witness for C8: an empty JSON body (both keys absent) is a 400. -/
theorem quiz_missing_fields_bad_request_witness :
    Trivia.get_random_quiz_question [] none none (fun _ => 0) 5 = .badRequest :=
  quiz_missing_fields_bad_request [] none none (fun _ => 0) 5 (Or.inl rfl)

/-- C4 (refuted on the absent branch): deleting an id that no stored question
has does not fail with NotFound — `Question.query.get(id)` returns `None`,
`None.delete()` raises `AttributeError`, and the handler's `except IndexError`
does not catch it, so the request dies with a 500. -/
theorem delete_question_missing_id_uncaught (store : List Trivia.Question)
    (id : Nat) (habs : ∀ q ∈ store, q.id ≠ id) :
    Trivia.delete_question store id = .error .attributeError ∧
    Trivia.delete_question store id ≠ .error .notFound := by
  have hfind : store.find? (fun q => q.id == id) = none :=
    List.find?_eq_none.mpr (fun q hq => by simpa using habs q hq)
  constructor
  · rw [Trivia.delete_question, hfind]
  · intro h
    rw [Trivia.delete_question, hfind] at h
    exact absurd (Except.error.inj h) (by decide)

/-- Witness for C4: deleting id 1000 from a one-question store answers 500
(uncaught AttributeError), not NotFound. -/
theorem delete_question_missing_id_uncaught_witness :
    Trivia.delete_question [⟨5, "q5", "a5", 1, 1⟩] 1000 =
        .error .attributeError ∧
    Trivia.delete_question [⟨5, "q5", "a5", 1, 1⟩] 1000 ≠ .error .notFound :=
  delete_question_missing_id_uncaught [⟨5, "q5", "a5", 1, 1⟩] 1000 (by decide)

/-- C5 (refuted at the handler): the engine-level filter does yield an empty
sequence on a zero-match term without failing, but the handler layer never
maps that to NotFound — `search_questions` raises `NameError` (500) on every
invocation, before the term is even read. -/
theorem search_zero_matches_not_mapped_to_not_found :
    Trivia.searchFilter
        [⟨23, "La Giaconda is better known as what?", "Mona Lisa", 2, 3⟩]
        "xyzzy" = [] ∧
    (∀ store pageArg body,
      Trivia.search_questions store pageArg body = .error .nameError) ∧
    Trivia.HandlerError.nameError ≠ .notFound := by
  exact ⟨by decide, fun _ _ _ => rfl, by decide⟩

/-- C6 (refuted): a `POST` body whose `searchTerm` is empty or absent is not
answered with 422 by the search handler — the undefined name `reques` in its
first statement raises `NameError` (500) before the empty-term check runs. -/
theorem search_empty_term_not_422 :
    (∀ store pageArg, Trivia.search_questions store pageArg
      ⟨none, none, none, none, some (.str "")⟩ = .error .nameError) ∧
    (∀ store pageArg, Trivia.search_questions store pageArg
      ⟨none, none, none, none, none⟩ = .error .nameError) ∧
    Trivia.HandlerError.nameError ≠ .unprocessable := by
  exact ⟨fun _ _ => rfl, fun _ _ => rfl, by decide⟩

/-- C7: when no category has the requested id the handler answers 400 Bad
request — and the answer is the same whatever the question table holds, i.e.
it fails before any questions are fetched; when exactly one category has the
id, the handler succeeds and returns that category's label. -/
theorem category_resolution (cats : List Trivia.Category)
    (pageArg : Option Nat) (id : Nat) :
    ((∀ c ∈ cats, c.id ≠ id) → ∀ questions,
      Trivia.get_questions_by_category ⟨questions, cats⟩ pageArg id =
        .error .badRequest) ∧
    (∀ c, cats.filter (fun c => c.id == id) = [c] → ∀ questions, ∃ resp,
      Trivia.get_questions_by_category ⟨questions, cats⟩ pageArg id =
        .ok resp ∧ resp.current_category = c.type) := by
  constructor
  · intro habs questions
    have hfilter : cats.filter (fun c => c.id == id) = [] :=
      List.filter_eq_nil_iff.mpr (fun c hc => by simpa using habs c hc)
    rw [Trivia.get_questions_by_category, Trivia.one_or_none, hfilter]
  · intro c hfilter questions
    refine ⟨⟨true,
      Trivia.paginate_questions pageArg (questions.filter (fun q => q.category == id)),
      questions.length, c.type⟩, ?_, rfl⟩
    rw [Trivia.get_questions_by_category, Trivia.one_or_none, hfilter]

/-- Witness for C7: id 100 is rejected with 400 on a catalog holding only
category 1 = "Science", and id 1 resolves to that category. -/
theorem category_resolution_witness :
    Trivia.get_questions_by_category ⟨[⟨7, "q7", "a7", 1, 1⟩], [⟨1, "Science"⟩]⟩
        none 100 = .error .badRequest ∧
    ∃ resp, Trivia.get_questions_by_category
        ⟨[⟨7, "q7", "a7", 1, 1⟩], [⟨1, "Science"⟩]⟩ none 1 = .ok resp ∧
      resp.current_category = (⟨1, "Science"⟩ : Trivia.Category).type :=
  ⟨(category_resolution [⟨1, "Science"⟩] none 100).1 (by decide)
      [⟨7, "q7", "a7", 1, 1⟩],
    (category_resolution [⟨1, "Science"⟩] none 1).2 ⟨1, "Science"⟩ (by decide)
      [⟨7, "q7", "a7", 1, 1⟩]⟩

/-- C9: both view functions are registered on `POST /questions`, so the
request is dispatched to the first-registered `create_question`; a body
holding only a `searchTerm` has all four creation fields defaulting to `''`
and is rejected with 422 — no question is inserted (the result is not
`created`) and no search runs (the dispatched handler contains none). -/
theorem post_questions_searchTerm_shadowed (s : Trivia.JsonVal) :
    Trivia.post_questions ⟨none, none, none, none, some s⟩ = .unprocessable ∧
    ∀ q a d c, Trivia.post_questions ⟨none, none, none, none, some s⟩ ≠
      .created q a d c := by
  exact ⟨rfl, fun _ _ _ _ h => by cases h⟩

/-- Witness for C9: the body `{'searchTerm': 'La Giaconda'}` is answered 422
by the dispatched create handler and inserts nothing. -/
theorem post_questions_searchTerm_shadowed_witness :
    Trivia.post_questions ⟨none, none, none, none,
        some (.str "La Giaconda")⟩ = .unprocessable ∧
    ∀ q a d c, Trivia.post_questions ⟨none, none, none, none,
        some (.str "La Giaconda")⟩ ≠ .created q a d c :=
  post_questions_searchTerm_shadowed (.str "La Giaconda")

/-- C10: every questions-by-category success reports
`len(Question.query.all())` — the size of the whole catalog, not of the
requested category — as `total_questions`; the same expression is what the
(unreachable) search handler would report on a success. -/
theorem total_questions_whole_catalog (store : Trivia.Store)
    (pageArg : Option Nat) (id : Nat) :
    (∀ resp, Trivia.get_questions_by_category store pageArg id = .ok resp →
      resp.total_questions = store.questions.length) ∧
    (∀ pageArg' body page total,
      Trivia.search_questions store.questions pageArg' body = .ok (page, total) →
      total = store.questions.length) := by
  constructor
  · intro resp h
    rw [Trivia.get_questions_by_category] at h
    cases hone : Trivia.one_or_none store.categories id with
    | error e => rw [hone] at h; cases h
    | ok oc =>
      cases oc with
      | none => rw [hone] at h; cases h
      | some category =>
        rw [hone] at h
        simp only at h
        cases h
        rfl
  · intro pageArg' body page total h
    cases h

/-- Witness for C10: on a two-question catalog whose category 1 holds a
single question, the by-category response still reports 2. -/
theorem total_questions_whole_catalog_witness :
    (⟨true, [⟨1, "q1", "a1", 1, 1⟩], 2, "Science"⟩ :
        Trivia.CategoryQuestionsResponse).total_questions =
      (Trivia.Store.mk [⟨1, "q1", "a1", 1, 1⟩, ⟨2, "q2", "a2", 2, 1⟩]
        [⟨1, "Science"⟩]).questions.length :=
  (total_questions_whole_catalog
      ⟨[⟨1, "q1", "a1", 1, 1⟩, ⟨2, "q2", "a2", 2, 1⟩], [⟨1, "Science"⟩]⟩
      none 1).1 ⟨true, [⟨1, "q1", "a1", 1, 1⟩], 2, "Science"⟩ rfl

/-- C3: for every sequence `items` and every page `p ≥ 1` with page size 10,
`paginate_questions` returns the slice `items[start:end]` with
`start = (p-1)*10`, `end = start+10`, clamped silently to the bounds; in
particular it returns `[]` on the empty list at page 1, elements 20..24 of a
25-element list at page 3, `[]` at page 4, and the page defaults to 1 when the
parameter is not supplied. -/
theorem paginate_questions_slice (items : List Trivia.Question) (p : Nat)
    (_hp : 1 ≤ p) :
    Trivia.paginate_questions (some p) items =
      ((items.map Trivia.Question.format).drop ((p - 1) * 10)).take 10 ∧
    Trivia.paginate_questions none items =
      (items.map Trivia.Question.format).take 10 ∧
    Trivia.paginate_questions (some 1) ([] : List Trivia.Question) = [] ∧
    (items.length = 25 →
      Trivia.paginate_questions (some 3) items =
        (items.map Trivia.Question.format).drop 20 ∧
      Trivia.paginate_questions (some 4) items = []) := by
  refine ⟨rfl, by simp [Trivia.paginate_questions, Trivia.QUESTIONS_PER_PAGE], rfl, ?_⟩
  intro h25
  constructor
  · show ((items.map Trivia.Question.format).drop 20).take 10 = _
    exact List.take_of_length_le (by simp [h25])
  · show ((items.map Trivia.Question.format).drop 30).take 10 = _
    rw [List.drop_eq_nil_of_le (by simp [h25])]
    rfl

/-- Witness for C3 at page 3 of a concrete 25-question list. -/
theorem paginate_questions_slice_witness :
    (1 ≤ 3) ∧
    (Trivia.paginate_questions (some 3)
        ((List.range 25).map (fun i => ⟨i, "q", "a", 1, 1⟩)) =
      ((((List.range 25).map (fun i => (⟨i, "q", "a", 1, 1⟩ : Trivia.Question))).map
          Trivia.Question.format).drop ((3 - 1) * 10)).take 10) := by
  have h := paginate_questions_slice
    ((List.range 25).map (fun i => ⟨i, "q", "a", 1, 1⟩)) 3 (by decide)
  exact ⟨by decide, h.1⟩
